import Mathlib

/- Verification of the f1_analyzer lap-time analysis pipeline.

   Shallow embedding conventions:
   - Lap durations are measured in seconds and modelled as rationals (`ℚ`);
     the float NaN / pandas NaT / Python None "missing value" sentinel is
     modelled as `Option.none`.
   - A pandas DataFrame of laps is modelled as a `List LapRow`; each row keeps
     its pandas index label (`index`), since pandas aligns Series by index.
   - Methods that can raise return `Except String`; the string names the
     Python exception.  Methods that assign to `self` return the new state. -/

namespace F1

/- A row of the session lap table (fastf1 `session.laps`).  `lapTime` is the
   lap duration converted to seconds (`.dt.total_seconds()` is a monotone unit
   conversion, so it is applied once here); `none` models a null (NaT). -/
structure LapRow where
  index : ℕ
  driver : String
  team : String
  lapNumber : ℚ
  stint : Option ℚ
  lapTime : Option ℚ
deriving DecidableEq, Repr

/- numpy helpers, modelled over ℚ. -/

/- np.mean: sum divided by length (on [] numpy yields nan; here 0/0 = 0,
   a value no consumer ever uses on []). -/
def np_mean (xs : List ℚ) : ℚ := xs.sum / xs.length

/- np.median: sort ascending, take the middle element (odd length) or the
   mean of the two middle elements (even length).  On [] numpy yields nan
   with a warning; the value returned here on [] is irrelevant because every
   consumer either guards emptiness or filters an empty list. -/
def np_median (xs : List ℚ) : ℚ :=
  let s := List.insertionSort (· ≤ ·) xs
  if xs.length % 2 = 1 then s.getD (xs.length / 2) 0
  else (s.getD (xs.length / 2 - 1) 0 + s.getD (xs.length / 2) 0) / 2

/- Population variance, i.e. the square of np.std (numpy default ddof = 0). -/
def np_var (xs : List ℚ) : ℚ := ((xs.map (fun x => (x - np_mean xs) ^ 2)).sum) / xs.length

/- The fixed multiplier 1.5 from TimeBasedAnalyzer.filter_lap_outliers. -/
def outlier_threshold : ℚ := 3 / 2

/- TimeBasedAnalyzer.filter_lap_outliers: keep the values t with
   abs (t - median) <= 1.5 * np.std.  Since np.std xs = Real.sqrt (np_var xs)
   and both sides of the comparison are nonnegative, the test is encoded in
   the equivalent squared form (t - m)^2 <= 1.5^2 * np_var xs, which is
   decidable over ℚ; the equivalence with the original form is proved in
   `mem_filter_lap_outliers_iff` below. -/
def filter_lap_outliers (lap_times : List ℚ) : List ℚ :=
  let m := np_median lap_times
  lap_times.filter (fun t => decide ((t - m) ^ 2 ≤ outlier_threshold ^ 2 * np_var lap_times))

/- TimeBasedAnalyzer.get_lap_times_dropna:
   self.laps['LapTime'].dropna().dt.total_seconds() — the non-null durations,
   in original row order, in seconds. -/
def get_lap_times_dropna (laps : List LapRow) : List ℚ :=
  laps.filterMap (fun r => r.lapTime)

/- TimeBasedAnalyzer.get_average_lap_time: median of the outlier-filtered
   clean durations; np.nan (none) if the filtered list is empty.  The two
   logging calls in the body do not affect the value. -/
def get_average_lap_time (laps : List LapRow) : Option ℚ :=
  let clean_lap_times := filter_lap_outliers (get_lap_times_dropna laps)
  if clean_lap_times = [] then none else some (np_median clean_lap_times)

/- pandas Series.var: sample variance with ddof = 1; nan (none) when fewer
   than two values are present. -/
def pd_series_var (xs : List ℚ) : Option ℚ :=
  if xs.length < 2 then none
  else some (((xs.map (fun x => (x - np_mean xs) ^ 2)).sum) / ((xs.length : ℚ) - 1))

/- TimeBasedAnalyzer.calculate_lap_time_variance. -/
def calculate_lap_time_variance (laps : List LapRow) : Option ℚ :=
  pd_series_var (filter_lap_outliers (get_lap_times_dropna laps))

/- np.percentile with the default linear interpolation: on a sorted list s of
   length n, the p-th percentile is s[h] interpolated at the virtual index
   h = (n-1) * p / 100.  On an empty array numpy raises
   IndexError ("cannot do a non-empty take from an empty axes."). -/
def np_percentile (xs : List ℚ) (p : ℚ) : Except String ℚ :=
  if xs = [] then .error "IndexError" else
  let s := List.insertionSort (· ≤ ·) xs
  let n := xs.length
  let h : ℚ := ((n : ℚ) - 1) * p / 100
  let i : ℕ := (⌊h⌋).toNat
  let lo := s.getD i 0
  let hi := s.getD (min (i + 1) (n - 1)) 0
  .ok (lo + (h - (i : ℚ)) * (hi - lo))

/- TimeBasedAnalyzer.calculate_lap_times_percentile: dict comprehension
   {p: np.percentile(filtered, p) for p in percentile}; the first raise
   aborts the whole call.  The default argument is [25, 50, 75]. -/
def calculate_lap_times_percentile (laps : List LapRow) (percentile : List ℚ) :
    Except String (List (ℚ × ℚ)) :=
  let filtered := filter_lap_outliers (get_lap_times_dropna laps)
  percentile.mapM (fun p => (np_percentile filtered p).map (fun v => (p, v)))

/- Column labels of the lap table supplied by the session provider (fastf1
   `Laps`).  The table has a column 'LapTime' (used by every other method and
   by the repository's own test fixture) and no column 'LapTimes'. -/
def lapsColumns : List String :=
  ["Time", "Driver", "DriverNumber", "LapTime", "LapNumber", "Stint",
   "Sector1Time", "Sector2Time", "Sector3Time", "Compound", "TyreLife",
   "Team", "TrackStatus", "Position", "IsAccurate"]

/- A row of the DataFrame built by lap_time_progression: lap number, lap time
   in seconds, and Series.diff of the latter (none for the first row, which
   has no predecessor). -/
structure ProgressionRow where
  lapNumber : ℚ
  lapTimeSeconds : ℚ
  timeChange : Option ℚ
deriving DecidableEq, Repr

/- Consecutive differences: each row's timeChange is its lap time minus the
   previous row's lap time. -/
def diffRows : ℚ → List (ℚ × ℚ) → List ProgressionRow
  | _, [] => []
  | prev, (n, t) :: rest => { lapNumber := n, lapTimeSeconds := t, timeChange := some (t - prev) } :: diffRows t rest

/- The computation the body of lap_time_progression performs on a
   two-column (LapNumber, lap time) table: dropna, sort by LapNumber
   (pandas sort_values is stable), Series.diff. -/
def progressionCore (laps : List LapRow) : List ProgressionRow :=
  let rows := laps.filterMap (fun r => r.lapTime.map (fun t => (r.lapNumber, t)))
  let sorted := List.insertionSort (fun a b => a.1 ≤ b.1) rows
  match sorted with
  | [] => []
  | (n, t) :: rest => { lapNumber := n, lapTimeSeconds := t, timeChange := none } :: diffRows t rest

/- TimeBasedAnalyzer.lap_time_progression.  The body starts with the column
   projection self.laps[['LapNumber', 'LapTimes']]; pandas raises KeyError
   when a requested label is not among the table's columns.  'LapTimes' is
   not a column of the lap table (see lapsColumns), so the projection raises
   before any computation; the then-branch below is unreachable. -/
def lap_time_progression (laps : List LapRow) : Except String (List ProgressionRow) :=
  if ("LapNumber" ∈ lapsColumns ∧ "LapTimes" ∈ lapsColumns) then
    .ok (progressionCore laps)
  else
    .error "KeyError: LapTimes"

/- Analyzer state and session provider. -/

/- Fields assigned by BaseAnalyzer.__init__ / TimeBasedAnalyzer.__init__:
   identifier, year, round_number, session_identifier, session = None,
   laps = None. -/
structure AnalyzerState where
  identifier : String
  year : ℤ
  round_number : ℤ
  session_identifier : String
  session : Option (List LapRow)
  laps : Option (List LapRow)
deriving DecidableEq, Repr

/- The external session provider (fastf1.get_session(...).load()), modelled
   as a pure function from (year, round, session identifier) to the session's
   lap table.  SessionLoadError is outside the claims checked here. -/
def SessionProvider : Type := ℤ → ℤ → String → List LapRow

/- Laps.pick_drivers(code): the rows of the session lap table whose Driver
   equals the code; row labels are preserved. -/
def pick_drivers (table : List LapRow) (code : String) : List LapRow :=
  table.filter (fun r => r.driver == code)

/- Laps.pick_teams(code). -/
def pick_teams (table : List LapRow) (code : String) : List LapRow :=
  table.filter (fun r => r.team == code)

/- BaseAnalyzer.load_session: always fetches and assigns self.session. -/
def load_session (provider : SessionProvider) (st : AnalyzerState) : AnalyzerState :=
  { st with session := some (provider st.year st.round_number st.session_identifier) }

/- DriverTimeBasedAnalyzer.load_data / TeamAnalyzer.load_data, abstracted
   over the row-selection function (pick_drivers vs pick_teams): load the
   session, then laps := selection of the session table by this identifier. -/
def load_data_with (pick : List LapRow → String → List LapRow)
    (provider : SessionProvider) (st : AnalyzerState) : AnalyzerState :=
  let st' := load_session provider st
  { st' with laps := some (pick (st'.session.getD []) st'.identifier) }

/- The result record returned by TimeBasedAnalyzer.analyze (an AnalyzeResult
   TypedDict).  fastest_lap is none when the LapSet has no non-null duration
   (pandas Series.min of an all-null column is NaT, whose total_seconds() is
   the nan sentinel). -/
structure AnalyzeResult where
  identifier : String
  year : ℤ
  round : ℤ
  average_lap_time : Option ℚ
  fastest_lap : Option ℚ
  lap_time_variance : Option ℚ
deriving DecidableEq, Repr

/- TimeBasedAnalyzer.analyze, abstracted over the row-selection function used
   by the subclass's load_data: lazy-load when self.laps is None, then build
   the result record.  self.laps['LapTime'].min() skips nulls, so the fastest
   lap is the minimum of the non-null durations (total_seconds() is monotone,
   so taking min before or after conversion agrees). -/
def analyze_with (pick : List LapRow → String → List LapRow)
    (provider : SessionProvider) (st : AnalyzerState) : AnalyzerState × AnalyzeResult :=
  let st' := if st.laps = none then load_data_with pick provider st else st
  let l := st'.laps.getD []
  (st',
   { identifier := st'.identifier, year := st'.year, round := st'.round_number,
     average_lap_time := get_average_lap_time l,
     fastest_lap := (get_lap_times_dropna l).min?,
     lap_time_variance := calculate_lap_time_variance l })

/- DriverTimeBasedAnalyzer.analyze (super().analyze() with driver picking). -/
def driver_analyze (provider : SessionProvider) (st : AnalyzerState) :
    AnalyzerState × AnalyzeResult :=
  analyze_with pick_drivers provider st

/- TeamAnalyzer.analyze. -/
def team_analyze (provider : SessionProvider) (st : AnalyzerState) :
    AnalyzerState × AnalyzeResult :=
  analyze_with pick_teams provider st

/- Comparison machinery (DriverTimeBasedAnalyzer.compare_lap_times). -/

/- Python truthiness of the optional string argument other_driver. -/
def truthyStr : Option String → Bool
  | none => false
  | some s => !(s == "")

/- Python truthiness of the optional integer argument stint
   (note: stint = 0 is falsy, so it does not filter). -/
def truthyInt : Option ℤ → Bool
  | none => false
  | some k => !(k == 0)

/- laps[laps['Stint'] == stint]: rows whose stint equals the given value
   (a null stint compares unequal, as NaN does in pandas). -/
def stintFilter (table : List LapRow) (k : ℤ) : List LapRow :=
  table.filter (fun r => r.stint == some (k : ℚ))

/- A row of the comparison DataFrame.  pandas builds the frame from Series
   carrying different indexes, so each output row corresponds to one label of
   the aligned (union) index; a column whose Series lacks that label holds
   NaN (none). -/
structure ComparisonRow where
  label : ℕ
  lapNumber : Option ℚ
  time_a : Option ℚ
  time_b : Option ℚ
  difference : Option ℚ
deriving DecidableEq, Repr

/- Value of a Series (a column of a labelled table) at a label. -/
def seriesLookup (table : List LapRow) (lbl : ℕ) : Option LapRow :=
  table.find? (fun r => r.index == lbl)

/- pandas index alignment for the DataFrame constructor: the union of the two
   indexes.  Session lap tables carry unique ascending integer labels, for
   which pandas Index.union is the sorted deduplicated union (and when the two
   indexes are equal the result is that same, already sorted, index). -/
def alignLabels (l1 l2 : List ℕ) : List ℕ :=
  List.insertionSort (· ≤ ·) ((l1 ++ l2).dedup)

/- The comparison DataFrame: columns LapNumber and Driver1_LapTime read from
   this analyzer's laps, Driver2_LapTime from the other laps, all aligned on
   the union index; then LapTimeDifference = Driver1 - Driver2 elementwise,
   with NaN (none) propagation. -/
def buildComparison (mine other : List LapRow) : List ComparisonRow :=
  (alignLabels (mine.map (fun r => r.index)) (other.map (fun r => r.index))).map (fun lbl =>
    let r1 := seriesLookup mine lbl
    let r2 := seriesLookup other lbl
    let a := r1.bind (fun r => r.lapTime)
    let b := r2.bind (fun r => r.lapTime)
    { label := lbl, lapNumber := r1.map (fun r => r.lapNumber), time_a := a, time_b := b,
      difference := match a, b with
        | some x, some y => some (x - y)
        | _, _ => none })

/- The tail of compare_lap_times after other_driver_laps has been computed:
   optional stint filtering (which reassigns self.laps), then the DataFrame
   construction.  When self.laps is None, the first subscript of it raises
   TypeError — at the stint-filter line when stint is truthy, otherwise at
   the DataFrame construction — in either case before any assignment, so the
   state is unchanged. -/
def compareRest (st : AnalyzerState) (otherLaps : List LapRow) (stint : Option ℤ) :
    AnalyzerState × Except String (List ComparisonRow) :=
  match st.laps with
  | none => (st, .error "TypeError: None is not subscriptable")
  | some mine =>
    if truthyInt stint then
      let k := stint.getD 0
      let mine' := stintFilter mine k
      let other' := stintFilter otherLaps k
      ({ st with laps := some mine' }, .ok (buildComparison mine' other'))
    else
      (st, .ok (buildComparison mine otherLaps))

/- DriverTimeBasedAnalyzer.compare_lap_times.  When other_driver is truthy the
   other laps are picked fresh from self.session.laps (raising AttributeError
   on a None session); otherwise the other laps alias self.laps.  No lazy
   loading is performed anywhere in the body. -/
def compare_lap_times (st : AnalyzerState) (other_driver : Option String) (stint : Option ℤ) :
    AnalyzerState × Except String (List ComparisonRow) :=
  if truthyStr other_driver then
    match st.session with
    | none => (st, .error "AttributeError: NoneType has no attribute laps")
    | some sess => compareRest st (pick_drivers sess (other_driver.getD "")) stint
  else
    match st.laps with
    | none => (st, .error "TypeError: None is not subscriptable")
    | some mine0 => compareRest st mine0 stint

/- Constructors and identifier validation. -/

/- BaseAnalyzer.validate_driver_code: len(code) == 3 and code.isalpha()
   (identifiers are ASCII three-letter codes, so Char.isAlpha matches
   Python's str.isalpha on the inputs of interest). -/
def validate_driver_code (code : String) : Bool :=
  code.length == 3 && code.data.all Char.isAlpha

/- TimeBasedAnalyzer.__init__ (inherited unchanged by
   DriverTimeBasedAnalyzer and TeamAnalyzer): plain field assignments, no
   validation, no I/O; it cannot raise, hence always .ok. -/
def TimeBasedAnalyzer_init (identifier : String) (year round_number : ℤ)
    (session_identifier : String) : Except String AnalyzerState :=
  .ok { identifier := identifier, year := year, round_number := round_number,
        session_identifier := session_identifier, session := none, laps := none }

/- State of the plain DriverAnalyzer (driver_analyzer.py). -/
structure DriverAnalyzerState where
  driver_code : String
  year : ℤ
  round_number : ℤ
  session : Option (List LapRow)
  laps : Option (List LapRow)
deriving DecidableEq, Repr

/- DriverAnalyzer.__init__: validates the driver code before anything else
   and raises ValueError when it fails; performs no I/O (session and laps
   stay None). -/
def DriverAnalyzer_init (driver_code : String) (year round_number : ℤ) :
    Except String DriverAnalyzerState :=
  if validate_driver_code driver_code then
    .ok { driver_code := driver_code, year := year, round_number := round_number,
          session := none, laps := none }
  else
    .error "ValueError: Invalid driver code"

/- State-passing wrappers for the read-only metric methods, mirroring that
   their bodies contain no assignment to self.laps (they only read it; on an
   unloaded analyzer the first subscript of None raises TypeError). -/

/- get_average_lap_time as a method call on the analyzer state. -/
def get_average_lap_time_m (st : AnalyzerState) : AnalyzerState × Except String (Option ℚ) :=
  match st.laps with
  | none => (st, .error "TypeError: None is not subscriptable")
  | some l => (st, .ok (get_average_lap_time l))

/- calculate_lap_time_variance as a method call on the analyzer state. -/
def calculate_lap_time_variance_m (st : AnalyzerState) : AnalyzerState × Except String (Option ℚ) :=
  match st.laps with
  | none => (st, .error "TypeError: None is not subscriptable")
  | some l => (st, .ok (calculate_lap_time_variance l))

/- calculate_lap_times_percentile as a method call on the analyzer state. -/
def calculate_lap_times_percentile_m (st : AnalyzerState) (ps : List ℚ) :
    AnalyzerState × Except String (List (ℚ × ℚ)) :=
  match st.laps with
  | none => (st, .error "TypeError: None is not subscriptable")
  | some l => (st, calculate_lap_times_percentile l ps)

/- lap_time_progression as a method call on the analyzer state. -/
def lap_time_progression_m (st : AnalyzerState) : AnalyzerState × Except String (List ProgressionRow) :=
  match st.laps with
  | none => (st, .error "TypeError: None is not subscriptable")
  | some l => (st, lap_time_progression l)

/- Concrete data used to instantiate theorems. -/

/- The LapSet of the repository's own test fixture (and of the spec's
   concrete scenario): durations 90, 85, 88, 95, 120, 87 seconds. -/
def fixtureLaps : List LapRow :=
  [{ index := 0, driver := "VER", team := "RBR", lapNumber := 1, stint := some 1, lapTime := some 90 },
   { index := 1, driver := "VER", team := "RBR", lapNumber := 2, stint := some 1, lapTime := some 85 },
   { index := 2, driver := "VER", team := "RBR", lapNumber := 3, stint := some 1, lapTime := some 88 },
   { index := 3, driver := "VER", team := "RBR", lapNumber := 4, stint := some 1, lapTime := some 95 },
   { index := 4, driver := "VER", team := "RBR", lapNumber := 5, stint := some 1, lapTime := some 120 },
   { index := 5, driver := "VER", team := "RBR", lapNumber := 6, stint := some 1, lapTime := some 87 }]

/- A loaded analyzer owning the fixture LapSet. -/
def fixtureState : AnalyzerState :=
  { identifier := "VER", year := 2024, round_number := 1, session_identifier := "R",
    session := some fixtureLaps, laps := some fixtureLaps }

/- A one-lap LapSet. -/
def oneLap : List LapRow :=
  [{ index := 0, driver := "VER", team := "RBR", lapNumber := 1, stint := some 1, lapTime := some 90 }]

/- A freshly constructed (Unloaded) analyzer. -/
def unloadedVER : AnalyzerState :=
  { identifier := "VER", year := 2024, round_number := 1, session_identifier := "R",
    session := none, laps := none }

/- A loaded analyzer whose LapSet is empty (no laps matched the identifier). -/
def emptyLapsState : AnalyzerState :=
  { identifier := "ZZZ", year := 2024, round_number := 1, session_identifier := "R",
    session := some [], laps := some [] }

/- A session in which drivers VER and BOT both drove lap numbers 3, 4, 5 of
   stint 1; their rows occupy disjoint row-label ranges of the session table,
   as pick_drivers always produces for two distinct drivers. -/
def cmpSession : List LapRow :=
  [{ index := 0, driver := "VER", team := "RBR", lapNumber := 3, stint := some 1, lapTime := some 90 },
   { index := 1, driver := "VER", team := "RBR", lapNumber := 4, stint := some 1, lapTime := some 91 },
   { index := 2, driver := "VER", team := "RBR", lapNumber := 5, stint := some 1, lapTime := some 92 },
   { index := 10, driver := "BOT", team := "MER", lapNumber := 3, stint := some 1, lapTime := some 80 },
   { index := 11, driver := "BOT", team := "MER", lapNumber := 4, stint := some 1, lapTime := some 81 },
   { index := 12, driver := "BOT", team := "MER", lapNumber := 5, stint := some 1, lapTime := some 82 }]

/- The VER analyzer loaded from cmpSession. -/
def cmpStateA : AnalyzerState :=
  { identifier := "VER", year := 2024, round_number := 1, session_identifier := "R",
    session := some cmpSession, laps := some (pick_drivers cmpSession "VER") }

/- A trivial session provider (the provider's output is irrelevant to the
   statements that use it). -/
def trivialProvider : SessionProvider := fun _ _ _ => []

/- Helper lemmas. -/

theorem np_var_nonneg (xs : List ℚ) : 0 ≤ np_var xs := by
  unfold np_var
  apply div_nonneg
  · apply List.sum_nonneg
    intro x hx
    obtain ⟨y, _, rfl⟩ := List.mem_map.mp hx
    positivity
  · exact_mod_cast Nat.zero_le _

theorem abs_le_mul_sqrt_iff (a c v : ℝ) (hv : 0 ≤ v) (hc : 0 ≤ c) :
    |a| ≤ c * Real.sqrt v ↔ a ^ 2 ≤ c ^ 2 * v := by
  have h0 : 0 ≤ c * Real.sqrt v := mul_nonneg hc (Real.sqrt_nonneg v)
  rw [← pow_le_pow_iff_left₀ (abs_nonneg a) h0 (two_ne_zero), sq_abs, mul_pow, Real.sq_sqrt hv]

theorem mem_filter_lap_outliers_iff (xs : List ℚ) (v : ℚ) :
    v ∈ filter_lap_outliers xs ↔
      v ∈ xs ∧ |(v : ℝ) - (np_median xs : ℝ)| ≤ (3 / 2) * Real.sqrt ((np_var xs : ℝ)) := by
  unfold filter_lap_outliers
  rw [List.mem_filter]
  apply and_congr_right
  intro _
  rw [decide_eq_true_eq,
    abs_le_mul_sqrt_iff _ _ _ (by exact_mod_cast np_var_nonneg xs) (by norm_num)]
  rw [show ((3 : ℝ) / 2) ^ 2 * (np_var xs : ℝ) = ((outlier_threshold ^ 2 * np_var xs : ℚ) : ℝ) by
        unfold outlier_threshold; push_cast; ring]
  rw [show ((v : ℝ) - (np_median xs : ℝ)) ^ 2 = (((v - np_median xs) ^ 2 : ℚ) : ℝ) by push_cast; ring]
  exact_mod_cast Iff.rfl

theorem getD_eq_of_forall_eq (l : List ℚ) (v : ℚ) (i : ℕ) (h : ∀ x ∈ l, x = v)
    (hi : i < l.length) : l.getD i 0 = v := by
  rw [List.getD_eq_getElem?_getD, List.getElem?_eq_getElem hi]
  exact h _ (List.getElem_mem hi)

theorem np_median_const (xs : List ℚ) (v : ℚ) (hne : xs ≠ []) (h : ∀ x ∈ xs, x = v) :
    np_median xs = v := by
  unfold np_median
  have hperm := List.perm_insertionSort (r := fun a b : ℚ => a ≤ b) xs
  have hlen : (List.insertionSort (· ≤ ·) xs).length = xs.length := hperm.length_eq
  have hall : ∀ x ∈ List.insertionSort (· ≤ ·) xs, x = v := fun x hx => h x (hperm.mem_iff.mp hx)
  have hpos : 0 < xs.length := List.length_pos.mpr hne
  by_cases hodd : xs.length % 2 = 1
  · rw [if_pos hodd]
    exact getD_eq_of_forall_eq _ _ _ hall (by omega)
  · rw [if_neg hodd]
    rw [getD_eq_of_forall_eq _ _ _ hall (by omega), getD_eq_of_forall_eq _ _ _ hall (by omega)]
    ring

theorem np_mean_const (xs : List ℚ) (v : ℚ) (hne : xs ≠ []) (h : ∀ x ∈ xs, x = v) :
    np_mean xs = v := by
  unfold np_mean
  rw [List.sum_eq_card_nsmul xs v h, nsmul_eq_mul]
  have hpos : 0 < xs.length := List.length_pos.mpr hne
  exact mul_div_cancel_left₀ v (by exact_mod_cast hpos.ne')

theorem np_var_const (xs : List ℚ) (v : ℚ) (h : ∀ x ∈ xs, x = v) : np_var xs = 0 := by
  rcases eq_or_ne xs [] with rfl | hne
  · simp [np_var]
  · unfold np_var
    have hm := np_mean_const xs v hne h
    have hz : ∀ y ∈ xs.map (fun x => (x - np_mean xs) ^ 2), y = 0 := by
      intro y hy
      obtain ⟨x, hx, rfl⟩ := List.mem_map.mp hy
      rw [h x hx, hm]
      ring
    rw [List.sum_eq_zero hz, zero_div]

theorem filter_lap_outliers_const (xs : List ℚ) (v : ℚ) (h : ∀ x ∈ xs, x = v) :
    filter_lap_outliers xs = xs := by
  rcases eq_or_ne xs [] with rfl | hne
  · rfl
  · unfold filter_lap_outliers
    rw [List.filter_eq_self]
    intro a ha
    rw [decide_eq_true_eq, h a ha, np_median_const xs v hne h, np_var_const xs v h]
    simp

/- A one-lap LapSet with duration 0 (used to instantiate hypotheses). -/
def zeroLap : List LapRow :=
  [{ index := 0, driver := "VER", team := "RBR", lapNumber := 1, stint := some 1, lapTime := some 0 }]

/- Claim theorems. -/

/-- C1: for every loaded LapSet, get_average_lap_time equals the median of the
outlier-filtered sequence of non-null lap durations in seconds; when the
filtered sequence is empty — in particular when the LapSet itself is empty —
it returns the NaN sentinel (none).  The function is total, so it never
raises. -/
theorem C1_average_is_median_of_filtered (laps : List LapRow) :
    (filter_lap_outliers (get_lap_times_dropna laps) ≠ [] →
      get_average_lap_time laps =
        some (np_median (filter_lap_outliers (get_lap_times_dropna laps))))
    ∧ (filter_lap_outliers (get_lap_times_dropna laps) = [] →
      get_average_lap_time laps = none)
    ∧ (laps = [] → get_average_lap_time laps = none) := by
  have hdef : get_average_lap_time laps =
      if filter_lap_outliers (get_lap_times_dropna laps) = [] then none
      else some (np_median (filter_lap_outliers (get_lap_times_dropna laps))) := rfl
  refine ⟨fun h => ?_, fun h => ?_, fun h => ?_⟩
  · rw [hdef, if_neg h]
  · rw [hdef, if_pos h]
  · subst h
    rfl

/-- C1 witness: on a concrete one-lap LapSet the filtered sequence is
nonempty and the average is the median of the filtered sequence. -/
theorem C1_witness :
    get_average_lap_time zeroLap =
      some (np_median (filter_lap_outliers (get_lap_times_dropna zeroLap))) :=
  (C1_average_is_median_of_filtered zeroLap).1
    (by simp [zeroLap, get_lap_times_dropna, filter_lap_outliers, np_median, np_var, np_mean,
          outlier_threshold, List.insertionSort, List.orderedInsert])

/-- C3: the Outlier Filter retains exactly the values v of the input with
abs (v - m) <= 1.5 * s, where m is the median and s = sqrt (np_var) the
population standard deviation of the input; on empty input it returns an
empty output; and when all values are identical (s = 0) it returns the full
input unchanged. -/
theorem C3_outlier_filter_characterization (xs : List ℚ) :
    (∀ v : ℚ, v ∈ filter_lap_outliers xs ↔
      v ∈ xs ∧ |(v : ℝ) - (np_median xs : ℝ)| ≤ (3 / 2) * Real.sqrt ((np_var xs : ℝ)))
    ∧ filter_lap_outliers [] = []
    ∧ (∀ v : ℚ, (∀ x ∈ xs, x = v) → filter_lap_outliers xs = xs) :=
  ⟨fun v => mem_filter_lap_outliers_iff xs v, rfl,
   fun v h => filter_lap_outliers_const xs v h⟩

/-- C3 witness: a constant sequence passes the filter unchanged. -/
theorem C3_witness : filter_lap_outliers [7, 7, 7] = [7, 7, 7] :=
  (C3_outlier_filter_characterization [7, 7, 7]).2.2 7 (by decide)

/-- C4: the claim says lap_time_progression returns a sequence sorted by lap
number whose deltas are consecutive differences.  The code instead projects
the columns ['LapNumber', 'LapTimes']; the lap table has a column 'LapTime'
(used by every other method of the same class and by the repository's test
fixture) but no column 'LapTimes', so the projection raises KeyError on every
LapSet and the method never returns at all. -/
theorem C4_progression_always_raises :
    ∀ laps : List LapRow, lap_time_progression laps = .error "KeyError: LapTimes" := by
  intro laps
  have h : ¬("LapNumber" ∈ lapsColumns ∧ "LapTimes" ∈ lapsColumns) := by decide
  simp only [lap_time_progression]
  rw [if_neg h]

/-- C8: the claim says calculate_lap_times_percentile on the empty LapSet
returns an empty-input-safe result without raising.  The code instead calls
np.percentile on the empty filtered array, which raises IndexError — both for
the bare metric function and through the method on a loaded analyzer whose
LapSet is empty — for the default percentile set 25, 50, 75. -/
theorem C8_percentile_raises_on_empty :
    calculate_lap_times_percentile [] [25, 50, 75] = .error "IndexError"
    ∧ calculate_lap_times_percentile_m emptyLapsState [25, 50, 75] =
        (emptyLapsState, .error "IndexError") := by
  exact ⟨rfl, rfl⟩

/-- C10: the Outlier Filter's output is an order-preserving subsequence of
its input (a List.Sublist), and every retained value keeps its original
multiplicity; in particular the output is a multiset-subset of the input. -/
theorem C10_filter_is_subsequence (xs : List ℚ) :
    (filter_lap_outliers xs).Sublist xs
    ∧ ∀ v : ℚ, v ∈ filter_lap_outliers xs →
        (filter_lap_outliers xs).count v = xs.count v := by
  have hdef : filter_lap_outliers xs =
      List.filter
        (fun t => decide ((t - np_median xs) ^ 2 ≤ outlier_threshold ^ 2 * np_var xs)) xs := rfl
  constructor
  · rw [hdef]
    exact List.filter_sublist xs
  · intro v hv
    rw [hdef] at hv ⊢
    rw [List.mem_filter] at hv
    exact List.count_filter hv.2

/-- C10 witness: a retained value keeps its multiplicity on a concrete
input. -/
theorem C10_witness : (filter_lap_outliers [0]).count 0 = List.count 0 [0] :=
  (C10_filter_is_subsequence [0]).2 0
    (by simp [filter_lap_outliers, np_median, np_var, np_mean, outlier_threshold,
          List.insertionSort, List.orderedInsert])

/- Helper lemmas about analyze_with and compare_lap_times. -/

theorem analyze_with_state_of_loaded (pick : List LapRow → String → List LapRow)
    (provider : SessionProvider) (st : AnalyzerState) (h : st.laps ≠ none) :
    (analyze_with pick provider st).1 = st := by
  have hdef : (analyze_with pick provider st).1 =
      if st.laps = none then load_data_with pick provider st else st := rfl
  rw [hdef, if_neg h]

theorem compare_lap_times_eq (st : AnalyzerState) (o : Option String) (k : Option ℤ)
    (l sess : List LapRow) (hl : st.laps = some l) (hs : st.session = some sess) :
    compare_lap_times st o k =
      ((if truthyInt k then { st with laps := some (stintFilter l (k.getD 0)) } else st),
       .ok (buildComparison
         (if truthyInt k then stintFilter l (k.getD 0) else l)
         (if truthyInt k then
            stintFilter (if truthyStr o then pick_drivers sess (o.getD "") else l) (k.getD 0)
          else if truthyStr o then pick_drivers sess (o.getD "") else l))) := by
  cases h1 : truthyStr o <;> cases h2 : truthyInt k <;>
    simp [compare_lap_times, compareRest, hl, hs, h1, h2]

theorem buildComparison_map_label (mine other : List LapRow) :
    (buildComparison mine other).map (fun r => r.label) =
      alignLabels (mine.map (fun r => r.index)) (other.map (fun r => r.index)) := by
  unfold buildComparison
  rw [List.map_map]
  exact List.map_id _

theorem buildComparison_label_sorted (mine other : List LapRow) :
    ((buildComparison mine other).map (fun r => r.label)).Sorted (· ≤ ·) := by
  rw [buildComparison_map_label]
  exact List.sorted_insertionSort _ _

theorem buildComparison_difference (mine other : List LapRow) :
    ∀ r ∈ buildComparison mine other,
      r.difference = (match r.time_a, r.time_b with
        | some x, some y => some (x - y)
        | _, _ => none) := by
  intro r hr
  obtain ⟨lbl, _, rfl⟩ := List.mem_map.mp hr
  rfl

theorem buildComparison_self (mine : List LapRow) :
    ∀ r ∈ buildComparison mine mine, r.time_a = r.time_b := by
  intro r hr
  obtain ⟨lbl, _, rfl⟩ := List.mem_map.mp hr
  rfl

/-- C2: for every loaded LapSet with at least one non-null duration, the
fastest_lap field of the analyze() result is the minimum lap duration in
seconds over the unfiltered LapSet (nulls excluded, per the data-model
invariant): it is a member of the unfiltered duration sequence and a lower
bound of it.  The statement puts no condition on the Outlier Filter, so it
covers in particular LapSets whose minimum is removed by the filter from the
average computation. -/
theorem C2_fastest_lap_is_unfiltered_min
    (pick : List LapRow → String → List LapRow) (provider : SessionProvider)
    (st : AnalyzerState) (l : List LapRow) (m : ℚ)
    (hl : st.laps = some l) (hmin : (get_lap_times_dropna l).min? = some m) :
    ((analyze_with pick provider st).2).fastest_lap = some m
    ∧ m ∈ get_lap_times_dropna l
    ∧ (∀ x ∈ get_lap_times_dropna l, m ≤ x) := by
  have hne : ¬(st.laps = none) := by
    rw [hl]
    exact Option.some_ne_none l
  have hfast : ((analyze_with pick provider st).2).fastest_lap =
      (get_lap_times_dropna
        ((if st.laps = none then load_data_with pick provider st else st).laps.getD [])).min? := rfl
  refine ⟨?_, ?_, ?_⟩
  · rw [hfast, if_neg hne, hl]
    exact hmin
  · exact List.min?_mem (fun a b => min_choice a b) hmin
  · intro x hx
    exact (List.le_min?_iff (fun a b c => le_min_iff) hmin).1 (le_refl m) x hx

/-- C2 witness: on the fixture LapSet the fastest lap is 85 seconds, the
minimum of the unfiltered durations (120 is the value the Outlier Filter
removes; 85 is kept in the unfiltered minimum regardless). -/
theorem C2_witness :
    ((analyze_with pick_drivers trivialProvider fixtureState).2).fastest_lap = some 85
    ∧ (85 : ℚ) ∈ get_lap_times_dropna fixtureLaps
    ∧ (∀ x ∈ get_lap_times_dropna fixtureLaps, (85 : ℚ) ≤ x) :=
  C2_fastest_lap_is_unfiltered_min pick_drivers trivialProvider fixtureState fixtureLaps 85
    rfl (by decide)

/-- C7 counterexample: on an Unloaded analyzer, compare_lap_times does not
call load() and does not transition to Loaded: it raises TypeError and the
LapSet stays unset, refuting the claim that both analyze() and compare()
obey the lazy-load contract. -/
theorem C7_counterexample :
    (compare_lap_times unloadedVER none none).1.laps = none
    ∧ (compare_lap_times unloadedVER none none).2 =
        .error "TypeError: None is not subscriptable" :=
  ⟨rfl, rfl⟩

/-- C7 amended: analyze() obeys the lazy-load contract — called on an
Unloaded analyzer it first loads (fetching the session and picking this
identifier's rows) and transitions to Loaded; called on a Loaded analyzer it
reuses the loaded LapSet and fetches nothing (the state is unchanged).
compare_lap_times does not lazy-load: on an Unloaded analyzer it raises and
leaves the analyzer Unloaded. -/
theorem C7_analyze_lazy_loads_compare_does_not :
    (∀ (pick : List LapRow → String → List LapRow) (provider : SessionProvider)
       (st : AnalyzerState), st.laps = none →
      (analyze_with pick provider st).1 =
        { st with
          session := some (provider st.year st.round_number st.session_identifier),
          laps := some (pick (provider st.year st.round_number st.session_identifier)
            st.identifier) })
    ∧ (∀ (pick : List LapRow → String → List LapRow) (provider : SessionProvider)
         (st : AnalyzerState), st.laps ≠ none → (analyze_with pick provider st).1 = st)
    ∧ (∀ (st : AnalyzerState) (o : Option String) (k : Option ℤ), st.laps = none →
        (compare_lap_times st o k).1 = st
        ∧ (compare_lap_times st o k).1.laps = none
        ∧ ∀ rows, (compare_lap_times st o k).2 ≠ .ok rows) := by
  refine ⟨fun pick provider st h => ?_, fun pick provider st h => ?_, fun st o k h => ?_⟩
  · have hdef : (analyze_with pick provider st).1 =
        if st.laps = none then load_data_with pick provider st else st := rfl
    rw [hdef, if_pos h]
    rfl
  · exact analyze_with_state_of_loaded pick provider st h
  · have heq : compare_lap_times st o k = (st, .error "TypeError: None is not subscriptable")
        ∨ compare_lap_times st o k =
            (st, .error "AttributeError: NoneType has no attribute laps") := by
      unfold compare_lap_times compareRest
      cases h1 : truthyStr o
      · left
        rw [h]
        simp
      · cases hs : st.session
        · right
          simp
        · left
          rw [h]
          simp
    rcases heq with heq | heq <;> rw [heq] <;>
      exact ⟨rfl, h, fun rows hr => by cases hr⟩

/-- C7 witness: analyze() on a concrete Unloaded analyzer performs the load
and transitions to Loaded. -/
theorem C7_witness :
    (analyze_with pick_drivers trivialProvider unloadedVER).1 =
      { unloadedVER with
        session := some (trivialProvider unloadedVER.year unloadedVER.round_number
          unloadedVER.session_identifier),
        laps := some (pick_drivers (trivialProvider unloadedVER.year unloadedVER.round_number
          unloadedVER.session_identifier) unloadedVER.identifier) } :=
  C7_analyze_lazy_loads_compare_does_not.1 pick_drivers trivialProvider unloadedVER rfl

/-- C9: on a loaded analyzer, none of the metric or analysis operations
mutates self.laps — average, variance, percentiles, progression and analyze
leave the state unchanged, and so does a comparison without a (truthy) stint
— except that a comparison scoped to a stint drops self.laps to the subset
of rows with that stint value. -/
theorem C9_laps_never_mutated_except_stint_compare
    (st : AnalyzerState) (l : List LapRow) (hl : st.laps = some l) :
    (get_average_lap_time_m st).1 = st
    ∧ (calculate_lap_time_variance_m st).1 = st
    ∧ (∀ ps, (calculate_lap_times_percentile_m st ps).1 = st)
    ∧ (lap_time_progression_m st).1 = st
    ∧ (∀ (pick : List LapRow → String → List LapRow) (provider : SessionProvider),
        (analyze_with pick provider st).1 = st)
    ∧ (∀ (o : Option String) (k : Option ℤ) (sess : List LapRow), st.session = some sess →
        truthyInt k = false → (compare_lap_times st o k).1 = st)
    ∧ (∀ (o : Option String) (k : ℤ) (sess : List LapRow), st.session = some sess →
        truthyInt (some k) = true →
        (compare_lap_times st o (some k)).1 = { st with laps := some (stintFilter l k) }) := by
  refine ⟨?_, ?_, fun ps => ?_, ?_, fun pick provider => ?_, fun o k sess hs hk => ?_,
    fun o k sess hs hk => ?_⟩
  · unfold get_average_lap_time_m
    rw [hl]
  · unfold calculate_lap_time_variance_m
    rw [hl]
  · unfold calculate_lap_times_percentile_m
    rw [hl]
  · unfold lap_time_progression_m
    rw [hl]
  · exact analyze_with_state_of_loaded pick provider st (by rw [hl]; exact Option.some_ne_none l)
  · rw [compare_lap_times_eq st o k l sess hl hs, hk]
    rfl
  · rw [compare_lap_times_eq st o (some k) l sess hl hs, hk]
    rfl

/-- C9 witness: on the concrete fixture analyzer the average computation
leaves the state unchanged. -/
theorem C9_witness : (get_average_lap_time_m fixtureState).1 = fixtureState :=
  (C9_laps_never_mutated_except_stint_compare fixtureState fixtureLaps rfl).1

/-- C5 counterexample: the claim says rows are aligned strictly by
lap_number with inner-join semantics, so that when lap numbers 3, 4, 5 exist
in both stint-restricted LapSets the output has exactly 3 rows.  On a
concrete session where VER and BOT both drove laps 3, 4, 5 of stint 1 (on
disjoint row labels, as pick_drivers always yields for two distinct
drivers), the code's DataFrame construction aligns the Series by pandas
index, producing 6 rows, not 3. -/
theorem C5_counterexample :
    (stintFilter (pick_drivers cmpSession "VER") 1).map (fun r => r.lapNumber) = [3, 4, 5]
    ∧ (stintFilter (pick_drivers cmpSession "BOT") 1).map (fun r => r.lapNumber) = [3, 4, 5]
    ∧ (compare_lap_times cmpStateA (some "BOT") (some 1)).2.map List.length = .ok 6
    ∧ ¬((compare_lap_times cmpStateA (some "BOT") (some 1)).2.map List.length = .ok 3) := by
  have h6 : (compare_lap_times cmpStateA (some "BOT") (some 1)).2.map List.length = .ok 6 := by
    rfl
  refine ⟨by rfl, by rfl, h6, ?_⟩
  rw [h6]
  intro hcontr
  exact absurd (Except.ok.inj hcontr) (by decide)

/-- C5 amended: on a loaded analyzer, compare_lap_times restricts both
LapSets to the stint when the stint argument is truthy, but then aligns rows
by pandas row label (outer alignment on the union of the two index label
sets, in ascending label order), not by lap_number: each output row carries
the label it was aligned on, time_a and the lap number from this analyzer's
row with that label (null when absent), time_b from the other laps' row with
that label (null when absent), and difference = time_a − time_b with null
propagation; in the degenerate self-comparison (no other driver given) the
two columns coincide rowwise. -/
theorem C5_compare_aligns_by_index (st : AnalyzerState) (o : Option String) (k : Option ℤ)
    (l sess : List LapRow) (hl : st.laps = some l) (hs : st.session = some sess) :
    (compare_lap_times st o k).2 =
      .ok (buildComparison
        (if truthyInt k then stintFilter l (k.getD 0) else l)
        (if truthyInt k then
           stintFilter (if truthyStr o then pick_drivers sess (o.getD "") else l) (k.getD 0)
         else if truthyStr o then pick_drivers sess (o.getD "") else l))
    ∧ (∀ rows, (compare_lap_times st o k).2 = .ok rows →
        ((rows.map (fun r => r.label)).Sorted (· ≤ ·)
        ∧ (∀ r ∈ rows, r.difference = (match r.time_a, r.time_b with
            | some x, some y => some (x - y)
            | _, _ => none))
        ∧ (truthyStr o = false → ∀ r ∈ rows, r.time_a = r.time_b))) := by
  have heq := compare_lap_times_eq st o k l sess hl hs
  constructor
  · rw [heq]
  · intro rows hrows
    rw [heq] at hrows
    have hrows' := Except.ok.inj hrows
    subst hrows'
    refine ⟨buildComparison_label_sorted _ _, buildComparison_difference _ _, fun ho => ?_⟩
    rw [ho] at heq ⊢
    simp only [Bool.false_eq_true, if_false]
    by_cases hk : truthyInt k = true
    · rw [hk]
      simp only [if_true]
      exact buildComparison_self _
    · rw [Bool.not_eq_true] at hk
      rw [hk]
      simp only [Bool.false_eq_true, if_false]
      exact buildComparison_self _

/-- C5 witness: a concrete self-comparison without stint filtering returns
the index-aligned comparison of the VER LapSet with itself. -/
theorem C5_witness :
    (compare_lap_times cmpStateA none none).2 =
      .ok (buildComparison
        (if truthyInt none then stintFilter (pick_drivers cmpSession "VER") ((none : Option ℤ).getD 0)
         else pick_drivers cmpSession "VER")
        (if truthyInt none then
           stintFilter (if truthyStr none then pick_drivers cmpSession ((none : Option String).getD "")
             else pick_drivers cmpSession "VER") ((none : Option ℤ).getD 0)
         else if truthyStr none then pick_drivers cmpSession ((none : Option String).getD "")
         else pick_drivers cmpSession "VER")) :=
  (C5_compare_aligns_by_index cmpStateA none none (pick_drivers cmpSession "VER") cmpSession
    rfl rfl).1

/-- C6 counterexample: the claim says every analyzer variant fails with
InvalidIdentifier on an identifier that is not exactly 3 alphabetic
characters, before any I/O.  The TimeBasedAnalyzer constructor — inherited
unchanged by both the driver and the team time-based analyzers — performs no
validation at all: with the invalid identifier "12" it succeeds and returns
a normally initialized analyzer. -/
theorem C6_counterexample :
    validate_driver_code "12" = false
    ∧ TimeBasedAnalyzer_init "12" 2024 1 "R" =
        .ok { identifier := "12", year := 2024, round_number := 1, session_identifier := "R",
              session := none, laps := none } :=
  ⟨by decide, rfl⟩

/-- C6 amended: only the plain DriverAnalyzer validates its identifier: its
constructor succeeds exactly when the code is 3 alphabetic characters and
raises ValueError (the InvalidIdentifier condition) otherwise, before any
I/O (the constructed state has no session and no laps loaded); the
time-based analyzers' shared constructor accepts any identifier without
validation and performs no I/O either. -/
theorem C6_only_plain_driver_analyzer_validates :
    (∀ (code : String) (y r : ℤ),
      (DriverAnalyzer_init code y r).toOption.isSome = validate_driver_code code)
    ∧ (∀ (code : String) (y r : ℤ) (s : DriverAnalyzerState),
        DriverAnalyzer_init code y r = .ok s → s.session = none ∧ s.laps = none)
    ∧ (∀ code : String, validate_driver_code code = true ↔
        code.length = 3 ∧ ∀ c ∈ code.data, c.isAlpha = true)
    ∧ (∀ (idf : String) (y r : ℤ) (sid : String),
        TimeBasedAnalyzer_init idf y r sid =
          .ok { identifier := idf, year := y, round_number := r, session_identifier := sid,
                session := none, laps := none }) := by
  refine ⟨fun code y r => ?_, fun code y r s hok => ?_, fun code => ?_, fun idf y r sid => rfl⟩
  · unfold DriverAnalyzer_init
    by_cases h : validate_driver_code code = true
    · rw [if_pos h, h]
      rfl
    · rw [Bool.not_eq_true] at h
      rw [h, if_neg]
      · rfl
      · exact Bool.false_ne_true
  · unfold DriverAnalyzer_init at hok
    split at hok
    · exact ⟨congrArg DriverAnalyzerState.session (Except.ok.inj hok).symm,
        congrArg DriverAnalyzerState.laps (Except.ok.inj hok).symm⟩
    · cases hok
  · unfold validate_driver_code
    rw [Bool.and_eq_true, beq_iff_eq, List.all_eq_true]

/-- C6 witness: the valid code VER is accepted by DriverAnalyzer with no
session fetched and no laps loaded at construction time. -/
theorem C6_witness :
    ({ driver_code := "VER", year := 2024, round_number := 1, session := none,
       laps := none } : DriverAnalyzerState).session = none
    ∧ ({ driver_code := "VER", year := 2024, round_number := 1, session := none,
         laps := none } : DriverAnalyzerState).laps = none :=
  C6_only_plain_driver_analyzer_validates.2.1 "VER" 2024 1
    { driver_code := "VER", year := 2024, round_number := 1, session := none, laps := none }
    rfl

end F1
